import Mathlib

/-!
Verification of the openclaw-agency backend against its specification.

This file shallowly embeds the Python services that the checked claims are
about:
  * `app/services/proactivity/rule_engine.py` (condition evaluation,
    cooldown gating, suggestion creation),
  * `app/services/proactivity/suggestion_service.py` (`SuggestionService.create`),
  * `app/services/auto_heartbeat_governor.py` (`compute_desired_heartbeat`,
    `run_governor_once`),
  * `app/services/ws_relay/message_router.py` (`MessageRouter`),
  * `app/services/realtime/task_broadcast.py` (`TaskBroadcaster`).

Machine integers are modelled as `Int`/`Nat`, Python floats and ints as `Rat`
(Python's numeric cross-type equality is preserved), timestamps as `Int`
seconds, UUIDs as `Nat`, and JSON values as the inductive `JVal` below with
Python dictionaries as association lists carrying unique keys.
-/

/-- A Python/JSON value as stored in event payloads, rule conditions,
`action_config` and `heartbeat_config` columns.  Python `int`, `float` and
`bool` all compare numerically, so numbers are carried as `Rat` and booleans
get the numeric value 0/1 inside `pyEq`. -/
inductive JVal where
  | null : JVal
  | bool (b : Bool) : JVal
  | num (q : Rat) : JVal
  | str (s : String) : JVal
  | list (xs : List JVal) : JVal
  | obj (kvs : List (String × JVal)) : JVal

/-- A Python dict with string keys, as an association list (unique keys,
insertion ordered). -/
abbrev PyDict := List (String × JVal)

/-- `d.get(k)` on a Python dict: first binding of `k`, if any. -/
def dictGet (d : PyDict) (k : String) : Option JVal :=
  match d with
  | [] => none
  | (k2, v) :: rest => if k2 = k then some v else dictGet rest k

/-- `d.get(k, default)` on a Python dict. -/
def dictGetD (d : PyDict) (k : String) (dflt : JVal) : JVal :=
  (dictGet d k).getD dflt

/-- `d[k] = v` on a Python dict: replace in place if the key exists,
otherwise append (insertion order semantics). -/
def dictSet (d : PyDict) (k : String) (v : JVal) : PyDict :=
  match d with
  | [] => [(k, v)]
  | (k2, w) :: rest =>
      if k2 = k then (k2, v) :: rest else (k2, w) :: dictSet rest k v

/-- `d.update(e)` on a Python dict: set every binding of `e` into `d` in
order. -/
def dictUpdate (d e : PyDict) : PyDict :=
  e.foldl (fun acc kv => dictSet acc kv.1 kv.2) d

mutual

/-- Python `==` on JSON values: `None == None`; booleans equal their numeric
value (`True == 1`); numbers compare numerically; strings compare as strings;
lists compare pointwise; dicts compare as unordered key/value maps (equal key
count and, since keys are unique, every binding of the left dict matched by
`==` in the right). -/
def pyEq : JVal → JVal → Bool
  | .null, b => match b with | .null => true | _ => false
  | .bool a, b =>
      match b with
      | .bool c => a == c
      | .num q => (if a then (1 : Rat) else 0) == q
      | _ => false
  | .num a, b =>
      match b with
      | .num c => a == c
      | .bool c => a == (if c then (1 : Rat) else 0)
      | _ => false
  | .str a, b => match b with | .str c => a == c | _ => false
  | .list xs, b => match b with | .list ys => pyEqList xs ys | _ => false
  | .obj xs, b =>
      match b with
      | .obj ys => xs.length == ys.length && pyEqObjSub xs ys
      | _ => false

/-- Pointwise `pyEq` on lists of equal length. -/
def pyEqList : List JVal → List JVal → Bool
  | [], ys => ys.isEmpty
  | x :: xs, ys =>
      match ys with
      | [] => false
      | y :: ys2 => pyEq x y && pyEqList xs ys2

/-- Every binding of the first dict has a `pyEq`-equal value under the same
key in the second. -/
def pyEqObjSub : List (String × JVal) → List (String × JVal) → Bool
  | [], _ => true
  | (k, v) :: rest, ys =>
      (match dictGet ys k with | some w => pyEq v w | none => false)
        && pyEqObjSub rest ys
end

/-- Python truthiness of a JSON value (`bool(x)`). -/
def truthy : JVal → Bool
  | .null => false
  | .bool b => b
  | .num q => q != 0
  | .str s => !s.isEmpty
  | .list xs => !xs.isEmpty
  | .obj kvs => !kvs.isEmpty

/-- Numeric value of a Python number-or-boolean, when it is one. -/
def numVal : JVal → Option Rat
  | .bool b => some (if b then 1 else 0)
  | .num q => some q
  | _ => none

mutual

/-- Python `<` on JSON values.  Numbers and booleans compare numerically,
strings lexicographically, lists lexicographically (zipping with `==` first,
exactly like CPython); every other combination — in particular anything
involving `None` or a dict — raises `TypeError`, modelled as `.error ()`. -/
def pyLt : JVal → JVal → Except Unit Bool
  | .str a, .str b => .ok (decide (a < b))
  | .list xs, .list ys => pyLtList xs ys
  | a, b =>
      match numVal a, numVal b with
      | some x, some y => .ok (decide (x < y))
      | _, _ => .error ()

/-- CPython list `<`: skip `==`-equal prefixes, then compare the first
differing elements; a strict prefix is smaller. -/
def pyLtList : List JVal → List JVal → Except Unit Bool
  | [], [] => .ok false
  | [], _ :: _ => .ok true
  | _ :: _, [] => .ok false
  | x :: xs, y :: ys =>
      if pyEq x y then pyLtList xs ys else pyLt x y
end

mutual

/-- Python `<=` on JSON values; same domain as `pyLt`. -/
def pyLe : JVal → JVal → Except Unit Bool
  | .str a, .str b => .ok (decide (a ≤ b))
  | .list xs, .list ys => pyLeList xs ys
  | a, b =>
      match numVal a, numVal b with
      | some x, some y => .ok (decide (x ≤ y))
      | _, _ => .error ()

/-- CPython list `<=`: skip `==`-equal prefixes, then compare the first
differing elements; equal-prefix lists compare by length. -/
def pyLeList : List JVal → List JVal → Except Unit Bool
  | [], _ => .ok true
  | _ :: _, [] => .ok false
  | x :: xs, y :: ys =>
      if pyEq x y then pyLeList xs ys else pyLe x y
end

/-- `xs` is a leading segment of `ys` (element-wise `==`). -/
def listStartsWith (xs ys : List Char) : Bool :=
  match xs, ys with
  | [], _ => true
  | _ :: _, [] => false
  | x :: xs, y :: ys => x == y && listStartsWith xs ys

/-- `xs` occurs contiguously inside `ys` (Python substring containment;
the empty list occurs in everything). -/
def listOccursIn (xs ys : List Char) : Bool :=
  listStartsWith xs ys ||
    match ys with
    | [] => false
    | _ :: t => listOccursIn xs t

/-- Python `a in b`.  Lists test membership via `==`; strings test substring
containment and require a string on the left; dicts test key membership
(JSON keys are strings, and unhashable operands raise); everything else
raises `TypeError`. -/
def pyIn (a b : JVal) : Except Unit Bool :=
  match b with
  | .list xs => .ok (xs.any (fun x => pyEq a x))
  | .str s =>
      match a with
      | .str t => .ok (listOccursIn t.toList s.toList)
      | _ => .error ()
  | .obj kvs =>
      match a with
      | .str t => .ok (kvs.any (fun kv => kv.1 == t))
      | .list _ => .error ()
      | .obj _ => .error ()
      | _ => .ok false
  | _ => .error ()

/-- Digits of a decimal literal, most significant first. -/
def digitsVal : List Char → Option Nat
  | [] => none
  | cs => cs.foldl (fun acc c =>
      match acc with
      | none => none
      | some n => if c.isDigit then some (n * 10 + (c.toNat - '0'.toNat)) else none)
      (some 0)

/-- Python `float(x)` restricted to the values the repository stores in
`action_config`: numbers and booleans convert numerically, `None`, lists and
dicts raise `TypeError`, and strings are accepted when they are plain decimal
literals with an optional sign and fraction part (Python additionally accepts
exponent and inf/nan forms, which the repository never produces). -/
def pyFloat (v : JVal) : Except Unit Rat :=
  match v with
  | .num q => .ok q
  | .bool b => .ok (if b then 1 else 0)
  | .null => .error ()
  | .list _ => .error ()
  | .obj _ => .error ()
  | .str s =>
      let cs := s.toList
      let body := if cs.head? = some '-' ∨ cs.head? = some '+' then cs.tail else cs
      let neg := cs.head? = some '-'
      match body.splitOn '.' with
      | [intPart] =>
          match digitsVal intPart with
          | some n => .ok (if neg then -(n : Rat) else (n : Rat))
          | none => .error ()
      | [intPart, fracPart] =>
          match digitsVal (intPart ++ fracPart) with
          | some n =>
              let q : Rat := (n : Rat) / ((10 : Rat) ^ fracPart.length)
              .ok (if neg then -q else q)
          | none => .error ()
      | _ => .error ()

/-! ## Rule engine (`app/services/proactivity/rule_engine.py` and
`suggestion_service.py`) -/
/-- The settings the rule engine reads from `app.core.config.settings`
(defaults: cooldown 3600 seconds, suggestion expiry 168 hours). -/
structure RuleEngineSettings where
  proactivity_rule_cooldown_seconds : Int
  proactivity_suggestion_expiry_hours : Int

/-- A row of `proactive_rules` (`app/models/proactive_rules.py`).  UUIDs are
`Nat`, timestamps `Int` seconds; `cooldown_seconds` is a non-null integer
column with default 3600. -/
structure ProactiveRule where
  id : Nat
  organization_id : Nat
  board_id : Option Nat
  name : String
  description : Option String
  trigger_event : String
  conditions : PyDict
  action_type : String
  action_config : PyDict
  is_enabled : Bool
  is_builtin : Bool
  cooldown_seconds : Int
  last_fired_at : Option Int
  created_at : Int
  updated_at : Int

/-- A `SystemEvent` from `app/services/proactivity/event_bus.py`. -/
structure SystemEvent where
  event_type : String
  organization_id : Nat
  board_id : Option Nat
  agent_id : Option Nat
  task_id : Option Nat
  payload : PyDict
  timestamp : Int
  event_id : Nat

/-- A row of `agent_suggestions` as built by `SuggestionService.create`
(`app/models/agent_suggestions.py`).  The table model does not validate, so
`suggestion_type`, `title`, `description` and `priority` carry whatever JSON
value `action_config` held. -/
structure Suggestion where
  id : Nat
  organization_id : Nat
  board_id : Option Nat
  agent_id : Option Nat
  suggestion_type : JVal
  title : JVal
  description : JVal
  confidence : Rat
  priority : JVal
  status : String
  payload : PyDict
  source_event_id : Option Nat
  resolved_by_user_id : Option Nat
  resolved_at : Option Int
  expires_at : Option Int
  created_at : Int
  updated_at : Int

/-- `_evaluate_condition(condition, payload)`: read `field` (default `""`),
`op` (default `"eq"`) and `value` (default `None`) from the condition dict,
fetch `payload.get(field)` (missing fields give `None`), look the operator up
in `_OPERATORS`, and apply it; an unknown operator or a raised `TypeError`
yields `False`.  `applyOpNamed` is the `_OPERATORS` table. -/
def applyOpNamed (s : String) (a b : JVal) : Option (Except Unit Bool) :=
  if s = "eq" then some (.ok (pyEq a b))
  else if s = "ne" then some (.ok (!pyEq a b))
  else if s = "gt" then some (pyLt b a)
  else if s = "lt" then some (pyLt a b)
  else if s = "gte" then some (pyLe b a)
  else if s = "lte" then some (pyLe a b)
  else if s = "in" then some (pyIn a b)
  else if s = "contains" then some (pyIn b a)
  else none

/-- See `applyOpNamed`.  `payload.get(field)` uses the field name only when it
is a string (a non-string `field` value never indexes the string-keyed
payload). -/
def _evaluate_condition (condition payload : PyDict) : Bool :=
  let field := dictGetD condition "field" (.str "")
  let opName := dictGetD condition "op" (.str "eq")
  let expected := dictGetD condition "value" .null
  let actual : JVal :=
    match field with
    | .str f => dictGetD payload f .null
    | _ => .null
  match opName with
  | .str s =>
      match applyOpNamed s actual expected with
      | some (.ok b) => b
      | some (.error _) => false
      | none => false
  | _ => false

/-- The `all(...)` loop of `_evaluate_conditions`: conjunction over the list
with short-circuiting; a non-dict element raises (`.error`), which the
caller's per-rule `except` turns into "no suggestion". -/
def condsAll (cs : List JVal) (payload : PyDict) : Except Unit Bool :=
  match cs with
  | [] => .ok true
  | c :: rest =>
      match c with
      | .obj kvs =>
          if _evaluate_condition kvs payload then condsAll rest payload
          else .ok false
      | _ => .error ()

/-- `_evaluate_conditions(conditions, payload)`: `conditions.get("rules", [])`;
a falsy value (absent key, empty list, `None`, ...) passes vacuously; a truthy
non-list raises when iterated (its elements are not dicts). -/
def _evaluate_conditions (conditions payload : PyDict) : Except Unit Bool :=
  let rulesList := dictGetD conditions "rules" (.list [])
  if !truthy rulesList then .ok true
  else
    match rulesList with
    | .list cs => condsAll cs payload
    | _ => .error ()

/-- `_is_in_cooldown(rule)`: no `last_fired_at` means not in cooldown;
otherwise compare `now - last_fired_at` with
`rule.cooldown_seconds or settings.proactivity_rule_cooldown_seconds`
(Python `or`: the settings default substitutes exactly when the column is 0). -/
def _is_in_cooldown (cfg : RuleEngineSettings) (now : Int) (rule : ProactiveRule) : Bool :=
  match rule.last_fired_at with
  | none => false
  | some t =>
      let cooldown :=
        if rule.cooldown_seconds = 0 then cfg.proactivity_rule_cooldown_seconds
        else rule.cooldown_seconds
      decide (now - t < cooldown)

/-- A database write, for tracking transaction boundaries. -/
inductive DbOp where
  | insertSuggestion (s : Suggestion)
  | setRuleFired (ruleId : Nat) (firedAt updatedAt : Int)

/-- A committed-transaction trace: each inner list is one transaction. -/
abbrev TxTrace := List (List DbOp)

/-- The suggestion row `_create_suggestion_for_rule` builds through
`SuggestionService.create`: type/title/description/confidence/priority read
from `action_config` with the code's defaults, `status="pending"`,
`payload={"rule_id": str(rule.id), "event_payload": event.payload}`,
`board_id`/`agent_id` from the event, `source_event_id` left at its default
(`None` — the call site does not pass it), and
`expires_at = now + settings.proactivity_suggestion_expiry_hours` (the call
site passes no `expiry_hours`, so the settings value applies). -/
def mkSuggestion (cfg : RuleEngineSettings) (now : Int) (sid : Nat)
    (rule : ProactiveRule) (event : SystemEvent) (confidence : Rat) : Suggestion :=
  { id := sid
  , organization_id := event.organization_id
  , board_id := event.board_id
  , agent_id := event.agent_id
  , suggestion_type := dictGetD rule.action_config "suggestion_type" (.str rule.action_type)
  , title := dictGetD rule.action_config "title"
      (.str ("[" ++ rule.name ++ "] triggered by " ++ event.event_type))
  , description := dictGetD rule.action_config "description" .null
  , confidence := confidence
  , priority := dictGetD rule.action_config "priority" (.str "medium")
  , status := "pending"
  , payload := [("rule_id", .str (toString rule.id)), ("event_payload", .obj event.payload)]
  , source_event_id := none
  , resolved_by_user_id := none
  , resolved_at := none
  , expires_at := some (now + cfg.proactivity_suggestion_expiry_hours * 3600)
  , created_at := now
  , updated_at := now }

/-- `_create_suggestion_for_rule(rule, event)`: convert
`action_config.get("confidence", 0.7)` with `float()` (a failure propagates to
the caller's `except` — no transaction has started yet), then commit the
suggestion insert in one session, then run `_update_rule_fired_at` in a
second, separate session with its own commit.  The result pairs the created
suggestion with the committed-transaction trace. -/
def _create_suggestion_for_rule (cfg : RuleEngineSettings) (now : Int) (sid : Nat)
    (rule : ProactiveRule) (event : SystemEvent) : Except Unit (Suggestion × TxTrace) :=
  match pyFloat (dictGetD rule.action_config "confidence" (.num (7 / 10))) with
  | .error _ => .error ()
  | .ok confidence =>
      let s := mkSuggestion cfg now sid rule event confidence
      .ok (s, [[.insertSuggestion s], [.setRuleFired rule.id now now]])

/-- The rule-state change `_update_rule_fired_at` commits. -/
def applyRuleFired (now : Int) (rule : ProactiveRule) : ProactiveRule :=
  { rule with last_fired_at := some now, updated_at := now }

/-- One iteration of the per-rule loop in `handle_event`: cooldown gate, then
condition evaluation (an `.error` is caught by the loop's `except`), then
suggestion creation.  Returns the created suggestion (if any), the rule's
resulting state, and the transaction trace. -/
def processRule (cfg : RuleEngineSettings) (now : Int) (sid : Nat)
    (event : SystemEvent) (rule : ProactiveRule) :
    Option Suggestion × ProactiveRule × TxTrace :=
  if _is_in_cooldown cfg now rule then (none, rule, [])
  else
    match _evaluate_conditions rule.conditions event.payload with
    | .error _ => (none, rule, [])
    | .ok false => (none, rule, [])
    | .ok true =>
        match _create_suggestion_for_rule cfg now sid rule event with
        | .error _ => (none, rule, [])
        | .ok (s, txs) => (some s, applyRuleFired now rule, txs)

/-- `_load_matching_rules(org_id, event_type)`: enabled rules of the org whose
`trigger_event` matches. -/
def _load_matching_rules (db : List ProactiveRule) (orgId : Nat) (eventType : String) :
    List ProactiveRule :=
  db.filter (fun r =>
    r.organization_id == orgId && r.is_enabled && r.trigger_event == eventType)

/-- The per-rule loop of `handle_event` over an id supply (one fresh UUID per
rule position). -/
def processRules (cfg : RuleEngineSettings) (now : Int) :
    List Nat → List ProactiveRule → SystemEvent →
    List Suggestion × List ProactiveRule × TxTrace
  | _, [], _ => ([], [], [])
  | sids, r :: rest, event =>
      let step := processRule cfg now (sids.headD 0) event r
      let restOut := processRules cfg now sids.tail rest event
      (step.1.toList ++ restOut.1, step.2.1 :: restOut.2.1, step.2.2 ++ restOut.2.2)

/-- `handle_event(event)`: load the matching rules and run the per-rule loop. -/
def handle_event (cfg : RuleEngineSettings) (now : Int) (sids : List Nat)
    (db : List ProactiveRule) (event : SystemEvent) :
    List Suggestion × List ProactiveRule × TxTrace :=
  processRules cfg now sids (_load_matching_rules db event.organization_id event.event_type) event

/-! ## Heartbeat governor (`app/services/auto_heartbeat_governor.py`) -/
def DEFAULT_ACTIVE_EVERY : String := "5m"

def DEFAULT_LADDER : List String := ["10m", "30m", "1h", "3h", "6h"]

def DEFAULT_LEAD_CAP_EVERY : String := "1h"

/-- `ACTIVE_WINDOW = timedelta(minutes=60)`, in seconds. -/
def ACTIVE_WINDOW : Int := 3600

/-- The `DesiredHeartbeat` dataclass: `every = none` means "off" (unset the
heartbeat in the gateway config). -/
structure DesiredHeartbeat where
  every : Option String
  step : Int
  off : Bool
deriving DecidableEq

/-- `_is_active(now, last_chat_at, has_work)`. -/
def _is_active (now : Int) (last_chat_at : Option Int) (has_work : Bool) : Bool :=
  if has_work then true
  else
    match last_chat_at with
    | none => false
    | some t => decide (now - t ≤ ACTIVE_WINDOW)

/-- `ladder = list(ladder or DEFAULT_LADDER)` — `None` and the empty list are
falsy, so both fall back to the default ladder. -/
def effectiveLadder (ladder0 : Option (List String)) : List String :=
  match ladder0 with
  | none => DEFAULT_LADDER
  | some l => if l.isEmpty then DEFAULT_LADDER else l

/-- `compute_desired_heartbeat(is_lead, active, step, active_every, ladder,
lead_cap_every)`.  Active agents reset to `active_every` at step 0.  Idle
agents advance one rung (`next_step = max(1, step + 1)`).  A lead takes the
rung `ladder[next_step-1]` while `next_step` is within the ladder and
`lead_cap_every` past its end, with `step` clamped to the ladder length, and
is never off.  A non-lead takes the rung within the ladder and goes off
(`every=None`, `step=len(ladder)+1`) past its end. -/
def compute_desired_heartbeat (is_lead active : Bool) (step : Int)
    (active_every : String) (ladder0 : Option (List String))
    (lead_cap_every : String) : DesiredHeartbeat :=
  let ladder := effectiveLadder ladder0
  if active then ⟨some active_every, 0, false⟩
  else
    let next_step : Int := max 1 (step + 1)
    if is_lead then
      let next_every :=
        if next_step ≤ (ladder.length : Int) then ladder.getD (next_step - 1).toNat ""
        else lead_cap_every
      ⟨some next_every, min next_step (ladder.length : Int), false⟩
    else if next_step ≤ (ladder.length : Int) then
      ⟨some (ladder.getD (next_step - 1).toNat ""), next_step, false⟩
    else ⟨none, (ladder.length : Int) + 1, true⟩

/-- Modelled from the spec: duration strings match the regex `\d+[smhd]`
(section 4.7); this interprets one as a number of seconds, for comparing
`every` intervals.  (The repository itself only passes these strings through
to the gateway.) -/
def durationSeconds (s : String) : Option Int :=
  match s.toList.reverse with
  | [] => none
  | u :: revDigits =>
      let unit : Option Int :=
        if u = 's' then some 1
        else if u = 'm' then some 60
        else if u = 'h' then some 3600
        else if u = 'd' then some 86400
        else none
      match unit, digitsVal revDigits.reverse with
      | some k, some n => some ((n : Int) * k)
      | _, _ => none

/-- A row of `agents` with the governor-relevant columns
(`app/models/agents.py`).  The `gateway_id` column is non-null, but the code
guards the attribute against `None`, so the model carries an `Option`. -/
structure Agent where
  id : Nat
  board_id : Option Nat
  gateway_id : Option Nat
  is_board_lead : Bool
  auto_heartbeat_enabled : Bool
  auto_heartbeat_step : Int
  auto_heartbeat_off : Bool
  auto_heartbeat_last_active_at : Option Int
  heartbeat_config : Option PyDict
  updated_at : Int

/-- A row of `boards` with the governor policy columns
(`app/models/boards.py`). -/
structure Board where
  id : Nat
  auto_heartbeat_governor_enabled : Bool
  auto_heartbeat_governor_ladder : List String
  auto_heartbeat_governor_lead_cap_every : String
  auto_heartbeat_governor_activity_trigger_type : String

/-- A row of `gateways` with the governor-relevant columns. -/
structure Gateway where
  id : Nat
  url : Option String
  workspace_root : Option String

/-- The activity signals and reference tables `run_governor_once` snapshots:
`_latest_chat_by_board`, `_has_work_map`, and the board/gateway rows. -/
structure GovernorEnv where
  boards : List Board
  gateways : List Gateway
  chat_by_board : List (Nat × Int)
  has_work_by_agent : List (Nat × Bool)

/-- One queued gateway patch entry `(agent_id, workspace_path, heartbeat)`,
tagged with the gateway it is grouped under; `heartbeat = none` removes the
agent's heartbeat. -/
structure PatchEntry where
  gateway_id : Nat
  agent_key : String
  workspace_path : String
  heartbeat : Option PyDict

/-- Modelled from the spec: the repository imports `agent_key` from
`app.services.openclaw.internal.agent_key`, which is not part of the sources;
the spec only says patches are keyed per agent, so the model renders the
agent's id. -/
def agent_key (a : Agent) : String := toString a.id

/-- Modelled from the spec: `_workspace_path` comes from
`app.services.openclaw.provisioning`, which is not part of the sources; the
spec says patch entries are keyed by the agent's workspace path under the
gateway's workspace root. -/
def _workspace_path (a : Agent) (workspace_root : String) : String :=
  workspace_root ++ "/" ++ toString a.id

/-- `_merge_heartbeat_config(agent, every)`: start from
`{"every": every, "target": "last", "includeReasoning": False}`, overlay the
agent's existing config minus its `every` key, then force `every`. -/
def _merge_heartbeat_config (agent : Agent) (every : String) : PyDict :=
  let base : PyDict :=
    [("every", .str every), ("target", .str "last"), ("includeReasoning", .bool false)]
  match agent.heartbeat_config with
  | some cfg => dictSet (dictUpdate base (cfg.filter (fun kv => kv.1 ≠ "every"))) "every" (.str every)
  | none => base

/-- Python `==` between two optional dicts (`None` equals only `None`). -/
def pyEqConfig : Option PyDict → Option PyDict → Bool
  | none, none => true
  | some a, some b => pyEq (.obj a) (.obj b)
  | _, _ => false

/-- `a.bind (find in l)` lookups used by the governor. -/
def lookupBoard (boards : List Board) (bid : Option Nat) : Option Board :=
  bid.bind fun b => boards.find? (fun x => x.id == b)

def lookupGateway (gws : List Gateway) (gid : Option Nat) : Option Gateway :=
  gid.bind fun g => gws.find? (fun x => x.id == g)

def lookupChat (chats : List (Nat × Int)) (bid : Nat) : Option Int :=
  (chats.find? (fun c => c.1 == bid)).map (·.2)

def lookupWork (works : List (Nat × Bool)) (aid : Nat) : Bool :=
  ((works.find? (fun w => w.1 == aid)).map (·.2)).getD false

/-- Python falsiness of an optional string (`not gateway.url`). -/
def falsyStrOpt : Option String → Bool
  | none => true
  | some s => s.isEmpty

/-- The `continue` guards at the head of the per-agent loop of
`run_governor_once`: governor disabled for the agent, missing/unusable
gateway, or board policy disabled. -/
def skipAgent (env : GovernorEnv) (agent : Agent) : Bool :=
  if !agent.auto_heartbeat_enabled then true
  else
    match lookupGateway env.gateways agent.gateway_id with
    | none => true
    | some gw =>
        if falsyStrOpt gw.url || falsyStrOpt gw.workspace_root then true
        else
          match lookupBoard env.boards agent.board_id with
          | some b => !b.auto_heartbeat_governor_enabled
          | none => false

/-- The `active` value the loop computes for an agent: board chat recency and
(`activity_trigger_type ≠ "A"` only) assigned in-progress/review work. -/
def agentActive (env : GovernorEnv) (now : Int) (agent : Agent) : Bool :=
  let board := lookupBoard env.boards agent.board_id
  let last_chat_at := agent.board_id.bind (lookupChat env.chat_by_board)
  let has_work := lookupWork env.has_work_by_agent agent.id
  let trigger :=
    match board with
    | some b => b.auto_heartbeat_governor_activity_trigger_type
    | none => "B"
  _is_active now last_chat_at (if trigger ≠ "A" then has_work else false)

/-- The body of the per-agent loop of `run_governor_once`: compute the desired
heartbeat from the board policy, queue a patch (always, when turning off;
otherwise only when the current `every` differs or the agent was off), and
apply the DB updates (`auto_heartbeat_step`, `auto_heartbeat_off`,
`heartbeat_config`, `auto_heartbeat_last_active_at`, `updated_at`) when
anything changed. -/
def processAgentBody (env : GovernorEnv) (now : Int) (agent : Agent)
    (gw : Gateway) : Option PatchEntry × Agent :=
  let board := lookupBoard env.boards agent.board_id
  let active := agentActive env now agent
  let ladder0 : Option (List String) :=
    match board with
    | some b =>
        if b.auto_heartbeat_governor_ladder.isEmpty then none
        else some b.auto_heartbeat_governor_ladder
    | none => none
  let lead_cap :=
    match board with
    | some b => b.auto_heartbeat_governor_lead_cap_every
    | none => DEFAULT_LEAD_CAP_EVERY
  let desired := compute_desired_heartbeat agent.is_board_lead active
    agent.auto_heartbeat_step DEFAULT_ACTIVE_EVERY ladder0 lead_cap
  let needs_db := agent.auto_heartbeat_off != desired.off
    || agent.auto_heartbeat_step != desired.step
  let akey := agent_key agent
  let wpath := _workspace_path agent (gw.workspace_root.getD "")
  let heartbeat_payload := desired.every.map (_merge_heartbeat_config agent)
  let patch : Option PatchEntry :=
    match desired.every with
    | none => some ⟨gw.id, akey, wpath, none⟩
    | some e =>
        let current_every :=
          match agent.heartbeat_config with
          | some cfg => dictGet cfg "every"
          | none => none
        let everyDiffers :=
          match current_every with
          | some v => !pyEq v (.str e)
          | none => true
        if everyDiffers || agent.auto_heartbeat_off then
          some ⟨gw.id, akey, wpath, heartbeat_payload⟩
        else none
  let needs_heartbeat_config_update :=
    desired.every.isSome && !pyEqConfig agent.heartbeat_config heartbeat_payload
  if needs_db || needs_heartbeat_config_update then
    (patch,
     { agent with
        auto_heartbeat_step := desired.step
        auto_heartbeat_off := desired.off
        auto_heartbeat_last_active_at :=
          if active && needs_db then some now
          else agent.auto_heartbeat_last_active_at
        heartbeat_config :=
          if needs_heartbeat_config_update then heartbeat_payload
          else agent.heartbeat_config
        updated_at := now })
  else (patch, agent)

/-- The per-agent loop iteration of `run_governor_once`: the `continue` guards
(`skipAgent`), the gateway resolution, then the loop body. -/
def processAgent (env : GovernorEnv) (now : Int) (agent : Agent) :
    Option PatchEntry × Agent :=
  if skipAgent env agent then (none, agent)
  else
    match lookupGateway env.gateways agent.gateway_id with
    | none => (none, agent)
    | some gw => processAgentBody env now agent gw

/-- `run_governor_once()` under an acquired advisory lock: process every agent
in order, collecting the queued gateway patch entries and the committed agent
updates.  (The real code groups the entries per gateway before dispatch; the
model keeps them in agent order with the gateway id on each entry.) -/
def run_governor_once (env : GovernorEnv) (now : Int) :
    List Agent → List PatchEntry × List Agent
  | [] => ([], [])
  | a :: rest =>
      let step := processAgent env now a
      let restOut := run_governor_once env now rest
      (step.1.toList ++ restOut.1, step.2 :: restOut.2)

/-! ## Message router (`app/services/ws_relay/message_router.py`) -/
/-- A row of `h5_user_agent_assignments` (only the keys the router reads). -/
structure H5UserAgentAssignment where
  h5_user_id : Nat
  agent_id : Nat

/-- A row of `h5_chat_sessions` (`app/models/ws_sessions.py`). -/
structure H5ChatSession where
  id : Nat
  h5_user_id : Nat
  agent_id : Nat
  gateway_id : Nat
  session_key : String
  status : String
  last_message_at : Option Int
  created_at : Int
  updated_at : Int
deriving DecidableEq

/-- `_build_session_key(h5_user_id, agent_id)` = `h5:{h5_user_id}:{agent_id}`. -/
def _build_session_key (h5_user_id agent_id : Nat) : String :=
  "h5:" ++ toString h5_user_id ++ ":" ++ toString agent_id

/-- The delivery backends the router calls; each returns whether the send
was accepted. -/
structure RelayEnv where
  gateway_pool_send : Nat → Bool
  redis_publish_gateway : Nat → Bool
  h5_send_to_user : Nat → Bool
  redis_publish_h5_user : Nat → Bool

/-- `MessageRouter._get_or_create_session`: return the first active session
for the pair, else resolve the agent's `gateway_id` and create (and commit) a
new active session with key `h5:{user}:{agent}`; the fresh row id is supplied
by `sid`.  Returns the session and the resulting session table. -/
def _get_or_create_session (now : Int) (sid : Nat) (agents : List Agent)
    (sessions : List H5ChatSession) (h5_user_id agent_id : Nat) :
    Option (H5ChatSession × List H5ChatSession) :=
  match sessions.find? (fun s =>
      s.h5_user_id == h5_user_id && s.agent_id == agent_id && s.status == "active") with
  | some existing => some (existing, sessions)
  | none =>
      match agents.find? (fun a => a.id == agent_id) with
      | none => none
      | some agent =>
          match agent.gateway_id with
          | none => none
          | some gid =>
              let newSession : H5ChatSession :=
                { id := sid
                , h5_user_id := h5_user_id
                , agent_id := agent_id
                , gateway_id := gid
                , session_key := _build_session_key h5_user_id agent_id
                , status := "active"
                , last_message_at := none
                , created_at := now
                , updated_at := now }
              some (newSession, sessions ++ [newSession])

/-- The `chat.send` envelope `route_h5_to_agent` forwards to the gateway. -/
def chatSendMessage (session_key : String) (h5_user_id agent_id : Nat)
    (content : String) (message_id : Option String) : PyDict :=
  [ ("type", .str "chat.send")
  , ("id", (message_id.map JVal.str).getD .null)
  , ("payload", .obj
      [ ("session_key", .str session_key)
      , ("h5_user_id", .str (toString h5_user_id))
      , ("agent_id", .str (toString agent_id))
      , ("content", .str content)
      , ("role", .str "user") ]) ]

/-- `MessageRouter.route_h5_to_agent`: validate the assignment, get or create
the session, set the session's `last_message_at` and `updated_at` to now and
commit, then forward to the gateway pool with a Redis fallback.  Returns the
routing outcome and the resulting session table. -/
def route_h5_to_agent (env : RelayEnv) (now : Int) (sid : Nat)
    (assignments : List H5UserAgentAssignment) (agents : List Agent)
    (sessions : List H5ChatSession) (h5_user_id agent_id : Nat)
    (content : String) (message_id : Option String) :
    Bool × List H5ChatSession :=
  match assignments.find? (fun x =>
      x.h5_user_id == h5_user_id && x.agent_id == agent_id) with
  | none => (false, sessions)
  | some _ =>
      match _get_or_create_session now sid agents sessions h5_user_id agent_id with
      | none => (false, sessions)
      | some (chat_session, sessions1) =>
          let sessions2 := sessions1.map (fun s =>
            if s.id == chat_session.id then
              { s with last_message_at := some now, updated_at := now }
            else s)
          let _msg := chatSendMessage chat_session.session_key h5_user_id
            agent_id content message_id
          let sent := env.gateway_pool_send chat_session.gateway_id
            || env.redis_publish_gateway chat_session.gateway_id
          (sent, sessions2)

/-- The `chat_reply` envelope `route_gateway_to_h5_with_session` delivers. -/
def chatReplyMessage (session_key : String) (agent_id : Nat) (content : String)
    (message_id : Option String) (extra : PyDict) : PyDict :=
  [ ("type", .str "chat_reply")
  , ("id", (message_id.map JVal.str).getD .null)
  , ("payload", .obj (dictUpdate
      [ ("session_key", .str session_key)
      , ("agent_id", .str (toString agent_id))
      , ("content", .str content)
      , ("role", .str "assistant") ] extra)) ]

/-- `MessageRouter.route_gateway_to_h5_with_session`: resolve the active
session by key, build the `chat_reply` envelope, and deliver locally with a
Redis fallback.  The session table is returned unchanged — the function
performs no database write. -/
def route_gateway_to_h5_with_session (env : RelayEnv)
    (sessions : List H5ChatSession) (session_key : String) (content : String)
    (message_id : Option String) (extra : PyDict) :
    Bool × List H5ChatSession :=
  match sessions.find? (fun s =>
      s.session_key == session_key && s.status == "active") with
  | none => (false, sessions)
  | some chat_session =>
      let _msg := chatReplyMessage session_key chat_session.agent_id content
        message_id extra
      let delivered := env.h5_send_to_user chat_session.h5_user_id
        || env.redis_publish_h5_user chat_session.h5_user_id
      (delivered, sessions)

/-! ## Board sync broadcaster (`app/services/realtime/task_broadcast.py`) -/
/-- `_channel(board_id)` = `board_sync:{board_id}`. -/
def _channel (board_id : Nat) : String :=
  "board_sync:" ++ toString board_id

/-- `TaskBroadcaster.broadcast_task_updated`: the channel and JSON envelope
published for a `task.updated` event.  `nowIso` models `_utc_now_iso()`, the
RFC3339 UTC timestamp `datetime.now(tz=timezone.utc).isoformat()`. -/
def broadcast_task_updated (nowIso : String) (board_id task_id : Nat)
    (changes actor : PyDict) : String × PyDict :=
  (_channel board_id,
   [ ("type", .str "task.updated")
   , ("task_id", .str (toString task_id))
   , ("changes", .obj changes)
   , ("updated_by", .obj actor)
   , ("timestamp", .str nowIso) ])

/-- `TaskBroadcaster.broadcast_task_created`. -/
def broadcast_task_created (nowIso : String) (board_id : Nat) (task : PyDict) :
    String × PyDict :=
  (_channel board_id,
   [ ("type", .str "task.created")
   , ("task", .obj task)
   , ("timestamp", .str nowIso) ])

/-- `TaskBroadcaster.broadcast_task_deleted`. -/
def broadcast_task_deleted (nowIso : String) (board_id task_id : Nat) :
    String × PyDict :=
  (_channel board_id,
   [ ("type", .str "task.deleted")
   , ("task_id", .str (toString task_id))
   , ("timestamp", .str nowIso) ])

/-- `TaskBroadcaster.broadcast_suggestion`: the published envelope carries
only `type` and the suggestion payload (no timestamp field appears in the
source). -/
def broadcast_suggestion (board_id : Nat) (suggestion : PyDict) :
    String × PyDict :=
  (_channel board_id,
   [ ("type", .str "suggestion.new")
   , ("suggestion", .obj suggestion) ])

/-- Fixtures for C1: a board with the default policy (ladder
`10m,30m,1h,3h,6h`, `lead_cap_every="1h"`), a usable gateway, and an idle
board-lead agent at backoff step 3 whose current heartbeat is `1h`. -/
def boardC1 : Board := ⟨5, true, ["10m", "30m", "1h", "3h", "6h"], "1h", "B"⟩

def gatewayC1 : Gateway := ⟨1, some "http://gw", some "/ws"⟩

def agentC1 : Agent :=
  ⟨1, some 5, some 1, true, true, 3, false, none, some [("every", .str "1h")], 0⟩

def envC1 : GovernorEnv := ⟨[boardC1], [gatewayC1], [], []⟩

/-- The C2 claim formalised: some committed transaction of the trace contains
both the suggestion insert and the `last_fired_at` update. -/
def sameTransaction (trace : TxTrace) : Prop :=
  ∃ tx ∈ trace,
    (∃ s, DbOp.insertSuggestion s ∈ tx) ∧ ∃ r a b, DbOp.setRuleFired r a b ∈ tx

/-- Fixtures for C2/C10-independent rule-engine runs. -/
def cfgC2 : RuleEngineSettings := ⟨3600, 168⟩

def ruleC2 : ProactiveRule :=
  ⟨1, 1, none, "r2", none, "task.created", [], "notify", [], true, false, 3600,
    none, 0, 0⟩

def eventC2 : SystemEvent := ⟨"task.created", 1, none, none, none, [], 50, 9⟩

/-- The committed-transaction trace of a successful
`_create_suggestion_for_rule` run on the C2 fixtures. -/
def traceC2 : TxTrace :=
  match _create_suggestion_for_rule cfgC2 50 7 ruleC2 eventC2 with
  | .ok x => x.2
  | .error _ => []

/-- How `_evaluate_condition` behaves when the payload is missing the field:
the looked-up value is `None`, so `eq` passes exactly when the expected value
is `None`, `ne` passes exactly when it is not, `in` passes exactly when the
expected value is a list containing `None`, and the four order operators and
`contains` (and unknown operators) always fail (a `TypeError` is caught and
returned as `False`). -/
def missingFieldEval (op expected : JVal) : Bool :=
  match op with
  | .str s =>
      if s = "eq" then pyEq .null expected
      else if s = "ne" then !pyEq .null expected
      else if s = "gt" then false
      else if s = "lt" then false
      else if s = "gte" then false
      else if s = "lte" then false
      else if s = "in" then
        match expected with
        | .list xs => xs.any (fun x => pyEq .null x)
        | _ => false
      else if s = "contains" then false
      else false
  | _ => false

/-- Fixtures for C3: a `ne` condition on a field absent from the event
payload, inside an otherwise-matching rule with no cooldown. -/
def condC3 : PyDict :=
  [("field", .str "missing"), ("op", .str "ne"), ("value", .str "done")]

def ruleC3 : ProactiveRule :=
  ⟨3, 1, none, "r3", none, "task.created",
    [("rules", .list [.obj condC3])], "notify", [], true, false, 3600, none, 0, 0⟩

def eventC3 : SystemEvent := ⟨"task.created", 1, none, none, none, [], 50, 11⟩

/-- Fixtures for the C3 witness: a `gt` condition on a missing field. -/
def condC3w : PyDict :=
  [("field", .str "f"), ("op", .str "gt"), ("value", .num 3)]

def ruleC3w : ProactiveRule :=
  ⟨4, 1, none, "r3w", none, "task.created",
    [("rules", .list [.obj condC3w])], "notify", [], true, false, 3600, none, 0, 0⟩

def eventC3w : SystemEvent := ⟨"task.created", 1, none, none, none, [], 50, 12⟩

/-- Fixtures for C4: a rule with a fully populated `action_config`, and an
event with id 42 carrying board and agent ids. -/
def ruleC4 : ProactiveRule :=
  ⟨7, 1, some 5, "r4", none, "task.status_changed", [], "notify",
    [("suggestion_type", .str "review"), ("title", .str "Check task"),
     ("description", .str "desc"), ("confidence", .num (9 / 10)),
     ("priority", .str "high")],
    true, false, 3600, none, 0, 0⟩

def eventC4 : SystemEvent :=
  ⟨"task.status_changed", 1, some 5, some 6, some 8,
    [("new_status", .str "done")], 1000, 42⟩

/-- Fixtures for C10: a rule with an empty `conditions` dict (no `rules` key)
whose `action_config` carries a `None` confidence. -/
def ruleC10 : ProactiveRule :=
  ⟨10, 1, none, "r10", none, "task.created", [], "notify",
    [("confidence", .null)], true, false, 3600, none, 0, 0⟩

def eventC10 : SystemEvent := ⟨"task.created", 1, none, none, none, [], 60, 13⟩

/-- Fixture for the C10 witness: same shape but with no `confidence` key. -/
def ruleC10w : ProactiveRule :=
  ⟨11, 1, none, "r10w", none, "task.created", [], "notify", [], true, false,
    3600, none, 0, 0⟩

/-- Fixtures for C8: a delivery environment that accepts everything, and an
active chat session whose `last_message_at` is 100. -/
def relayEnvC8 : RelayEnv := ⟨fun _ => true, fun _ => true, fun _ => true, fun _ => true⟩

def sessionC8 : H5ChatSession := ⟨10, 1, 2, 3, "h5:1:2", "active", some 100, 0, 0⟩

/-- Fixtures for the C8 witness: user 1 assigned to agent 2 on gateway 3,
no existing session. -/
def relayAgentC8 : Agent := ⟨2, none, some 3, false, true, 0, false, none, none, 0⟩

def assignC8 : H5UserAgentAssignment := ⟨1, 2⟩

def sessionC8w : H5ChatSession := ⟨77, 1, 2, 3, "h5:1:2", "active", none, 5, 5⟩

/-- Modelling invariant for a Python dict stored in `heartbeat_config`:
its keys are unique (a real `dict` cannot carry duplicates). -/
def agentConfigKeysOk (a : Agent) : Prop :=
  match a.heartbeat_config with
  | some cfg => (cfg.map Prod.fst).Nodup
  | none => True

/-- An agent record in the steady state the governor leaves an active agent
in: not off, with a heartbeat config whose `every` equals `"5m"`. -/
def agentNormalized (a : Agent) : Prop :=
  a.auto_heartbeat_off = false
  ∧ ∃ cfg v, a.heartbeat_config = some cfg ∧ dictGet cfg "every" = some v
      ∧ pyEq v (.str "5m") = true

/-- Fixtures for C7: an idle non-lead agent that is already fully off
(step 6, `auto_heartbeat_off=true`) on a usable gateway. -/
def agentC7 : Agent := ⟨1, none, some 1, false, true, 6, true, none, none, 0⟩

def envC7 : GovernorEnv := ⟨[], [gatewayC1], [], []⟩

/-- Fixture for the C7 witness: an agent kept active by assigned work. -/
def agentC7w : Agent := ⟨1, none, some 1, false, true, 0, false, none, none, 0⟩

def envC7w : GovernorEnv := ⟨[], [gatewayC1], [], [(1, true)]⟩

/-! ## Helper lemmas -/
theorem dictGet_dictSet_self (d : PyDict) (k : String) (v : JVal) :
    dictGet (dictSet d k v) k = some v := by
  induction d with
  | nil => simp [dictSet, dictGet]
  | cons kv rest ih =>
      obtain ⟨k2, w⟩ := kv
      by_cases hk : k2 = k
      · simp [dictSet, dictGet, hk]
      · simp [dictSet, dictGet, hk, ih]

theorem dictGet_some_mem {xs : PyDict} {k : String} {v : JVal}
    (h : dictGet xs k = some v) : (k, v) ∈ xs := by
  induction xs with
  | nil => simp [dictGet] at h
  | cons kv rest ih =>
      obtain ⟨k2, w⟩ := kv
      by_cases hk : k2 = k
      · subst hk
        simp [dictGet] at h
        simp [h]
      · simp [dictGet, hk] at h
        exact List.mem_cons_of_mem _ (ih h)

theorem mem_keys_dictGet {xs : PyDict} {k : String}
    (h : k ∈ xs.map Prod.fst) : ∃ v, dictGet xs k = some v := by
  induction xs with
  | nil => simp at h
  | cons kv rest ih =>
      obtain ⟨k2, w⟩ := kv
      by_cases hk : k2 = k
      · exact ⟨w, by simp [dictGet, hk]⟩
      · have : k ∈ rest.map Prod.fst := by
          rcases List.mem_map.1 h with ⟨p, hp, hfst⟩
          rcases List.mem_cons.1 hp with hph | hpm
          · exact absurd (hph ▸ hfst) (by simpa using hk)
          · exact List.mem_map.2 ⟨p, hpm, hfst⟩
        rcases ih this with ⟨v, hv⟩
        exact ⟨v, by simp [dictGet, hk, hv]⟩

theorem dictGet_mem_keys {xs : PyDict} {k : String} {v : JVal}
    (h : dictGet xs k = some v) : k ∈ xs.map Prod.fst :=
  List.mem_map.2 ⟨(k, v), dictGet_some_mem h, rfl⟩

theorem pyEqObjSub_find {xs ys : PyDict}
    (h : pyEqObjSub xs ys = true) :
    ∀ {k : String} {v : JVal}, (k, v) ∈ xs →
      ∃ w, dictGet ys k = some w ∧ pyEq v w = true := by
  induction xs with
  | nil => intro k v hm; simp at hm
  | cons kv rest ih =>
      obtain ⟨k0, v0⟩ := kv
      rw [pyEqObjSub, Bool.and_eq_true] at h
      obtain ⟨hhead, htail⟩ := h
      intro k v hm
      cases hm with
      | head =>
          revert hhead
          cases hw : dictGet ys k0 with
          | none => intro hhead; simp at hhead
          | some w => intro hhead; exact ⟨w, rfl, hhead⟩
      | tail _ hmem => exact ih htail hmem

theorem pyEq_obj_elim {xs ys : PyDict}
    (h : pyEq (.obj xs) (.obj ys) = true) :
    xs.length = ys.length ∧ pyEqObjSub xs ys = true := by
  rw [pyEq, Bool.and_eq_true] at h
  obtain ⟨hlen, hsub⟩ := h
  exact ⟨by simpa using hlen, hsub⟩

theorem pyEq_obj_dictGet {xs ys : PyDict}
    (hnd : (xs.map Prod.fst).Nodup)
    (h : pyEq (.obj xs) (.obj ys) = true)
    {k : String} {w : JVal} (hk : dictGet ys k = some w) :
    ∃ v, dictGet xs k = some v ∧ pyEq v w = true := by
  rcases pyEq_obj_elim h with ⟨hlen, hsub⟩
  have hsubset : ∀ k2 ∈ xs.map Prod.fst, k2 ∈ ys.map Prod.fst := by
    intro k2 hk2
    rcases mem_keys_dictGet hk2 with ⟨v2, hv2⟩
    rcases pyEqObjSub_find hsub (dictGet_some_mem hv2) with ⟨w2, hw2, _⟩
    exact dictGet_mem_keys hw2
  have hfin : (xs.map Prod.fst).toFinset = (ys.map Prod.fst).toFinset := by
    apply Finset.eq_of_subset_of_card_le
    · intro k2 hk2
      exact List.mem_toFinset.2 (hsubset k2 (List.mem_toFinset.1 hk2))
    · calc (ys.map Prod.fst).toFinset.card
          ≤ (ys.map Prod.fst).length := (ys.map Prod.fst).toFinset_card_le
        _ = xs.length := by simpa using hlen.symm
        _ = (xs.map Prod.fst).length := by simp
        _ = (xs.map Prod.fst).toFinset.card := (List.toFinset_card_of_nodup hnd).symm
  have hkxs : k ∈ xs.map Prod.fst := by
    have : k ∈ (ys.map Prod.fst).toFinset := List.mem_toFinset.2 (dictGet_mem_keys hk)
    exact List.mem_toFinset.1 (hfin ▸ this)
  rcases mem_keys_dictGet hkxs with ⟨v, hv⟩
  rcases pyEqObjSub_find hsub (dictGet_some_mem hv) with ⟨w2, hw2, heq⟩
  have : w2 = w := by rw [hk] at hw2; exact (Option.some.inj hw2).symm
  exact ⟨v, hv, this ▸ heq⟩

theorem dictGet_merge_every (a : Agent) (e : String) :
    dictGet (_merge_heartbeat_config a e) "every" = some (.str e) := by
  unfold _merge_heartbeat_config
  cases a.heartbeat_config with
  | none => simp [dictGet]
  | some cfg => exact dictGet_dictSet_self ..

/-! ## Claims -/
/-- C5: for every event processed by the rule engine and every candidate rule
whose `last_fired_at` is set and satisfies
`now - last_fired_at < rule.cooldown_seconds` at evaluation time, the engine
creates no Suggestion for that rule and leaves the rule's state unchanged.
(The settings fallback cooldown, used only when the column is 0, is the
configured non-negative default.) -/
theorem C5_cooldown_gate (cfg : RuleEngineSettings) (now : Int) (sid : Nat)
    (event : SystemEvent) (rule : ProactiveRule) (t : Int)
    (hcfg : 0 ≤ cfg.proactivity_rule_cooldown_seconds)
    (hfired : rule.last_fired_at = some t)
    (hwin : now - t < rule.cooldown_seconds) :
    processRule cfg now sid event rule = (none, rule, []) := by
  have hcool : _is_in_cooldown cfg now rule = true := by
    simp only [_is_in_cooldown, hfired]
    by_cases h0 : rule.cooldown_seconds = 0
    · have hlt : now - t < cfg.proactivity_rule_cooldown_seconds :=
        lt_of_lt_of_le (h0 ▸ hwin) hcfg
      simp [h0, hlt]
    · simp [h0, hwin]
  simp [processRule, hcool]

/-- Witness for C5: a rule fired at t=100 with a 3600-second cooldown,
evaluated at t=110, is skipped and left unchanged. -/
theorem C5_cooldown_gate_witness :
    processRule ⟨3600, 168⟩ 110 1
      ⟨"task.created", 1, none, none, none, [], 110, 2⟩
      ⟨1, 1, none, "r", none, "task.created", [], "notify", [], true, false, 3600,
        some 100, 0, 0⟩
      = (none,
         ⟨1, 1, none, "r", none, "task.created", [], "notify", [], true, false, 3600,
           some 100, 0, 0⟩, []) :=
  C5_cooldown_gate ⟨3600, 168⟩ 110 1
    ⟨"task.created", 1, none, none, none, [], 110, 2⟩
    ⟨1, 1, none, "r", none, "task.created", [], "notify", [], true, false, 3600,
      some 100, 0, 0⟩
    100 (by decide) rfl (by decide)

/-- C6: for every ladder (as used by `compute_desired_heartbeat`, i.e. after
the `ladder or DEFAULT_LADDER` normalisation) of length N and every idle agent
whose incremented step `max(1, step+1)` exceeds N: a non-lead gets
`off=true`, no `every`, and `step = N+1`; a lead gets `every=lead_cap_every`,
`off=false` (and `step` clamped to N). -/
theorem C6_step_past_ladder (step : Int) (ladder0 : Option (List String))
    (ae cap : String)
    (h : ((effectiveLadder ladder0).length : Int) < max 1 (step + 1)) :
    compute_desired_heartbeat false false step ae ladder0 cap
      = ⟨none, ((effectiveLadder ladder0).length : Int) + 1, true⟩
    ∧ compute_desired_heartbeat true false step ae ladder0 cap
      = ⟨some cap, ((effectiveLadder ladder0).length : Int), false⟩ := by
  have h2 : ¬ (max 1 (step + 1) ≤ ((effectiveLadder ladder0).length : Int)) :=
    not_le.2 h
  constructor
  · simp [compute_desired_heartbeat, h2]
  · simp [compute_desired_heartbeat, h2, min_eq_right h.le]

/-- Witness for C6: with the default ladder (length 5) and an incremented
step of 1000, a non-lead goes off at step 6 and a lead caps at `1h`. -/
theorem C6_step_past_ladder_witness :
    compute_desired_heartbeat false false 999 "5m" none "1h" = ⟨none, 6, true⟩
    ∧ compute_desired_heartbeat true false 999 "5m" none "1h" = ⟨some "1h", 5, false⟩ :=
  C6_step_past_ladder 999 none "5m" "1h" (by decide)

/-- C9 counterexample: the claim says every broadcaster helper publishes an
envelope carrying a timestamp, but the `suggestion.new` envelope built by
`broadcast_suggestion` has exactly the keys `type` and `suggestion` — no
`timestamp` field. -/
theorem C9_counterexample :
    dictGet (broadcast_suggestion 7 [("id", .str "s1")]).2 "timestamp" = none
    ∧ (broadcast_suggestion 7 [("id", .str "s1")]).2.map Prod.fst
        = ["type", "suggestion"] := by
  exact ⟨rfl, rfl⟩

/-- C9 (amended): `broadcast_task_updated`, `broadcast_task_created` and
`broadcast_task_deleted` publish to `board_sync:{board_id}` an envelope with
`type`, the entity payload, and the RFC3339 UTC timestamp;
`broadcast_suggestion` publishes to the same channel an envelope with `type`
and the suggestion payload but no timestamp field. -/
theorem C9_envelopes_amended (nowIso : String) (bid tid : Nat)
    (changes actor task sugg : PyDict) :
    ((broadcast_task_updated nowIso bid tid changes actor).1 = _channel bid
      ∧ dictGet (broadcast_task_updated nowIso bid tid changes actor).2 "type"
          = some (.str "task.updated")
      ∧ dictGet (broadcast_task_updated nowIso bid tid changes actor).2 "task_id"
          = some (.str (toString tid))
      ∧ dictGet (broadcast_task_updated nowIso bid tid changes actor).2 "changes"
          = some (.obj changes)
      ∧ dictGet (broadcast_task_updated nowIso bid tid changes actor).2 "timestamp"
          = some (.str nowIso))
    ∧ ((broadcast_task_created nowIso bid task).1 = _channel bid
      ∧ dictGet (broadcast_task_created nowIso bid task).2 "type"
          = some (.str "task.created")
      ∧ dictGet (broadcast_task_created nowIso bid task).2 "task" = some (.obj task)
      ∧ dictGet (broadcast_task_created nowIso bid task).2 "timestamp"
          = some (.str nowIso))
    ∧ ((broadcast_task_deleted nowIso bid tid).1 = _channel bid
      ∧ dictGet (broadcast_task_deleted nowIso bid tid).2 "type"
          = some (.str "task.deleted")
      ∧ dictGet (broadcast_task_deleted nowIso bid tid).2 "task_id"
          = some (.str (toString tid))
      ∧ dictGet (broadcast_task_deleted nowIso bid tid).2 "timestamp"
          = some (.str nowIso))
    ∧ ((broadcast_suggestion bid sugg).1 = _channel bid
      ∧ dictGet (broadcast_suggestion bid sugg).2 "type"
          = some (.str "suggestion.new")
      ∧ dictGet (broadcast_suggestion bid sugg).2 "suggestion" = some (.obj sugg)
      ∧ dictGet (broadcast_suggestion bid sugg).2 "timestamp" = none) := by
  refine ⟨⟨rfl, ?_, ?_, ?_, ?_⟩, ⟨rfl, ?_, ?_, ?_⟩, ⟨rfl, ?_, ?_, ?_⟩, ⟨rfl, ?_, ?_, ?_⟩⟩
    <;> rfl

/-- C1 counterexample: the governor run enqueues a patch setting the idle
lead's `every` to `3h` (10800 s), which exceeds the board's
`lead_cap_every = "1h"` (3600 s): a lead walks the whole ladder, and the cap
only applies past the ladder's end. -/
theorem C1_counterexample :
    agentC1.is_board_lead = true
    ∧ boardC1.auto_heartbeat_governor_lead_cap_every = "1h"
    ∧ (run_governor_once envC1 0 [agentC1]).1
        = [⟨1, "1", "/ws/1",
            some [("every", .str "3h"), ("target", .str "last"),
                  ("includeReasoning", .bool false)]⟩]
    ∧ durationSeconds "3h" = some 10800
    ∧ durationSeconds "1h" = some 3600
    ∧ (3600 : Int) < 10800 :=
  ⟨rfl, rfl, rfl, rfl, rfl, by decide⟩

/-- C1 (amended): for an idle lead, `compute_desired_heartbeat` never turns
the heartbeat off, and the emitted `every` is the ladder rung
`ladder[next_step-1]` while the incremented step is within the ladder — a
value that may exceed `lead_cap_every` — and exactly `lead_cap_every` once
the incremented step passes the ladder's end. -/
theorem C1_lead_cap_amended (step : Int) (ladder0 : Option (List String))
    (ae cap : String) :
    (compute_desired_heartbeat true false step ae ladder0 cap).off = false
    ∧ (compute_desired_heartbeat true false step ae ladder0 cap).every
        = some (if max 1 (step + 1) ≤ ((effectiveLadder ladder0).length : Int)
                then (effectiveLadder ladder0).getD (max 1 (step + 1) - 1).toNat ""
                else cap) := by
  constructor
  · simp [compute_desired_heartbeat]
  · simp [compute_desired_heartbeat]

/-- C2 counterexample: the successful run commits exactly two transactions —
the suggestion insert first, the `last_fired_at` update second — and no
transaction contains both writes, refuting the same-transaction claim. -/
theorem C2_counterexample :
    traceC2.length = 2 ∧ ¬ sameTransaction traceC2 := by
  refine ⟨rfl, ?_⟩
  have htr : traceC2
      = [[.insertSuggestion (mkSuggestion cfgC2 50 7 ruleC2 eventC2 (7 / 10))],
         [.setRuleFired 1 50 50]] := rfl
  rintro ⟨tx, htx, ⟨s, hs⟩, ⟨r, a, b, hr⟩⟩
  rw [htr] at htx
  simp only [List.mem_cons, List.not_mem_nil, or_false] at htx
  rcases htx with h1 | h2
  · subst h1; simp at hr
  · subst h2; simp at hs

/-- C2 (amended): when the confidence value converts, the rule engine commits
the suggestion insert in its own transaction and then updates
`last_fired_at = now` in a second, separate transaction — so the suggestion
can persist even if the `last_fired_at` update does not. -/
theorem C2_two_transactions (cfg : RuleEngineSettings) (now : Int) (sid : Nat)
    (rule : ProactiveRule) (event : SystemEvent) (conf : Rat)
    (hconf : pyFloat (dictGetD rule.action_config "confidence" (.num (7 / 10)))
      = .ok conf) :
    _create_suggestion_for_rule cfg now sid rule event
      = .ok (mkSuggestion cfg now sid rule event conf,
             [[.insertSuggestion (mkSuggestion cfg now sid rule event conf)],
              [.setRuleFired rule.id now now]]) := by
  simp [_create_suggestion_for_rule, hconf]

/-- Witness for C2 (amended) at the concrete fixtures: no `confidence` key, so
`float(0.7)` converts and the two-transaction trace is produced. -/
theorem C2_two_transactions_witness :
    _create_suggestion_for_rule cfgC2 50 7 ruleC2 eventC2
      = .ok (mkSuggestion cfgC2 50 7 ruleC2 eventC2 (7 / 10),
             [[.insertSuggestion (mkSuggestion cfgC2 50 7 ruleC2 eventC2 (7 / 10))],
              [.setRuleFired ruleC2.id 50 50]]) :=
  C2_two_transactions cfgC2 50 7 ruleC2 eventC2 (7 / 10) rfl

theorem pyLt_null_left (b : JVal) : pyLt .null b = .error () := by
  cases b <;> rfl

theorem pyLt_null_right (a : JVal) : pyLt a .null = .error () := by
  cases a <;> rfl

theorem pyLe_null_left (b : JVal) : pyLe .null b = .error () := by
  cases b <;> rfl

theorem pyLe_null_right (a : JVal) : pyLe a .null = .error () := by
  cases a <;> rfl

theorem pyIn_null_right (a : JVal) : pyIn a .null = .error () := by
  cases a <;> rfl

theorem condsAll_ne_ok_true {cs : List JVal} {payload condition : PyDict}
    (hm : JVal.obj condition ∈ cs)
    (hfalse : _evaluate_condition condition payload = false) :
    condsAll cs payload ≠ .ok true := by
  induction cs with
  | nil => simp at hm
  | cons c rest ih =>
      cases hm with
      | head => simp [condsAll, hfalse]
      | tail _ hmem =>
          cases c with
          | obj kvs =>
              by_cases he : _evaluate_condition kvs payload = true
              · simpa [condsAll, he] using ih hmem
              · simp [condsAll, he]
          | null => simp [condsAll]
          | bool b => simp [condsAll]
          | num q => simp [condsAll]
          | str s => simp [condsAll]
          | list xs => simp [condsAll]

/-- C3 (amended): rule-condition evaluation treats a missing payload field as
the value `None` rather than failing closed universally: the order operators
`gt, lt, gte, lte` and `contains` indeed return false, but `eq` returns true
when the expected value is `None`, `ne` returns true whenever the expected
value is not `None`, and `in` returns true when the expected value is a list
containing `None` (`missingFieldEval` is exactly this case split).
Consequently a rule whose `rules` list contains a missing-field condition
with one of the fail-closed operators creates no Suggestion for that event
and is left unchanged. -/
theorem C3_missing_field_amended (condition payload : PyDict) (f : String)
    (hf : dictGetD condition "field" (.str "") = .str f)
    (hmiss : dictGet payload f = none) :
    _evaluate_condition condition payload
      = missingFieldEval (dictGetD condition "op" (.str "eq"))
          (dictGetD condition "value" .null)
    ∧ ∀ (cfg : RuleEngineSettings) (now : Int) (sid : Nat) (event : SystemEvent)
        (rule : ProactiveRule) (cs : List JVal),
        dictGetD condition "op" (.str "eq") ∈
          ([.str "gt", .str "lt", .str "gte", .str "lte", .str "contains"] :
            List JVal) →
        dictGetD rule.conditions "rules" (.list []) = .list cs →
        JVal.obj condition ∈ cs →
        event.payload = payload →
        processRule cfg now sid event rule = (none, rule, []) := by
  have heval : _evaluate_condition condition payload
      = missingFieldEval (dictGetD condition "op" (.str "eq"))
          (dictGetD condition "value" .null) := by
    simp only [_evaluate_condition, hf]
    have hact : dictGetD payload f .null = .null := by simp [dictGetD, hmiss]
    rw [hact]
    cases hop : dictGetD condition "op" (.str "eq") with
    | null => simp [missingFieldEval]
    | bool b => simp [missingFieldEval]
    | num q => simp [missingFieldEval]
    | list xs => simp [missingFieldEval]
    | obj kvs => simp [missingFieldEval]
    | str s =>
        by_cases h1 : s = "eq"
        · simp [applyOpNamed, missingFieldEval, h1]
        · by_cases h2 : s = "ne"
          · simp [applyOpNamed, missingFieldEval, h1, h2]
          · by_cases h3 : s = "gt"
            · simp [applyOpNamed, missingFieldEval, h1, h2, h3, pyLt_null_right]
            · by_cases h4 : s = "lt"
              · simp [applyOpNamed, missingFieldEval, h1, h2, h3, h4, pyLt_null_left]
              · by_cases h5 : s = "gte"
                · simp [applyOpNamed, missingFieldEval, h1, h2, h3, h4, h5,
                    pyLe_null_right]
                · by_cases h6 : s = "lte"
                  · simp [applyOpNamed, missingFieldEval, h1, h2, h3, h4, h5, h6,
                      pyLe_null_left]
                  · by_cases h7 : s = "in"
                    · simp only [applyOpNamed, missingFieldEval, h1, h2, h3, h4,
                        h5, h6, h7, if_false, if_true, if_neg, if_pos]
                      cases hv : dictGetD condition "value" .null with
                      | list xs => simp [pyIn]
                      | null => simp [pyIn]
                      | bool b => simp [pyIn]
                      | num q => simp [pyIn]
                      | str t => simp [pyIn]
                      | obj kvs => simp [pyIn]
                    · by_cases h8 : s = "contains"
                      · simp [applyOpNamed, missingFieldEval, h1, h2, h3, h4, h5,
                          h6, h7, h8, pyIn_null_right]
                      · simp [applyOpNamed, missingFieldEval, h1, h2, h3, h4, h5,
                          h6, h7, h8]
  refine ⟨heval, ?_⟩
  intro cfg now sid event rule cs hop hrules hmem hpay
  have hfalse : _evaluate_condition condition event.payload = false := by
    rw [hpay, heval]
    simp only [List.mem_cons, List.not_mem_nil, or_false] at hop
    rcases hop with h | h | h | h | h <;> rw [h] <;> simp [missingFieldEval]
  cases hcool : _is_in_cooldown cfg now rule with
  | true => simp [processRule, hcool]
  | false =>
      have hne : _evaluate_conditions rule.conditions event.payload ≠ .ok true := by
        simp only [_evaluate_conditions, hrules]
        have hcs : cs ≠ [] := List.ne_nil_of_mem hmem
        have htr : truthy (.list cs) = true := by simp [truthy, hcs]
        simpa [htr] using condsAll_ne_ok_true hmem hfalse
      cases hcond : _evaluate_conditions rule.conditions event.payload with
      | error e => simp [processRule, hcool, hcond]
      | ok b =>
          cases b with
          | false => simp [processRule, hcool, hcond]
          | true => exact absurd hcond hne

/-- C3 counterexample: the payload does not contain the field `missing`, yet
the `ne` condition evaluates to true, and the rule engine creates a
Suggestion for the rule — missing fields are not universally fail-closed. -/
theorem C3_counterexample :
    dictGet eventC3.payload "missing" = none
    ∧ _evaluate_condition condC3 eventC3.payload = true
    ∧ (processRule cfgC2 50 11 eventC3 ruleC3).1
        = some (mkSuggestion cfgC2 50 11 ruleC3 eventC3 (7 / 10)) :=
  ⟨rfl, rfl, rfl⟩

/-- Witness for C3 (amended): the `gt` condition on the missing field fails
closed and the rule creates nothing. -/
theorem C3_missing_field_amended_witness :
    _evaluate_condition condC3w [] = false
    ∧ processRule cfgC2 50 1 eventC3w ruleC3w = (none, ruleC3w, []) := by
  have h := C3_missing_field_amended condC3w [] "f" rfl rfl
  constructor
  · rw [h.1]; rfl
  · exact h.2 cfgC2 50 1 eventC3w ruleC3w [.obj condC3w] (List.Mem.head _) rfl
      (List.Mem.head _) rfl

/-- C4 counterexample: the rule fires on event 42, but the created
Suggestion's `source_event_id` is `None` — `_create_suggestion_for_rule`
never passes the event's id to `SuggestionService.create`. -/
theorem C4_counterexample :
    eventC4.event_id = 42
    ∧ (processRule cfgC2 1000 99 eventC4 ruleC4).1.map Suggestion.source_event_id
        = some none :=
  ⟨rfl, rfl⟩

/-- C4 (amended): a fired rule creates a Suggestion carrying the event's
`board_id`, `agent_id` and `organization_id` and the
`suggestion_type`/`title`/`description`/`confidence`/`priority` read from
`action_config` (with the code's defaults), but its `source_event_id` is
`None` — the event is linked only through `payload.event_payload`. -/
theorem C4_suggestion_fields_amended (cfg : RuleEngineSettings) (now : Int)
    (sid : Nat) (event : SystemEvent) (rule : ProactiveRule) (conf : Rat)
    (hcool : _is_in_cooldown cfg now rule = false)
    (hcond : _evaluate_conditions rule.conditions event.payload = .ok true)
    (hconf : pyFloat (dictGetD rule.action_config "confidence" (.num (7 / 10)))
      = .ok conf) :
    processRule cfg now sid event rule
      = (some (mkSuggestion cfg now sid rule event conf), applyRuleFired now rule,
         [[.insertSuggestion (mkSuggestion cfg now sid rule event conf)],
          [.setRuleFired rule.id now now]])
    ∧ (mkSuggestion cfg now sid rule event conf).board_id = event.board_id
    ∧ (mkSuggestion cfg now sid rule event conf).agent_id = event.agent_id
    ∧ (mkSuggestion cfg now sid rule event conf).organization_id
        = event.organization_id
    ∧ (mkSuggestion cfg now sid rule event conf).source_event_id = none
    ∧ (mkSuggestion cfg now sid rule event conf).suggestion_type
        = dictGetD rule.action_config "suggestion_type" (.str rule.action_type)
    ∧ (mkSuggestion cfg now sid rule event conf).title
        = dictGetD rule.action_config "title"
            (.str ("[" ++ rule.name ++ "] triggered by " ++ event.event_type))
    ∧ (mkSuggestion cfg now sid rule event conf).description
        = dictGetD rule.action_config "description" .null
    ∧ (mkSuggestion cfg now sid rule event conf).confidence = conf
    ∧ (mkSuggestion cfg now sid rule event conf).priority
        = dictGetD rule.action_config "priority" (.str "medium") := by
  refine ⟨?_, rfl, rfl, rfl, rfl, rfl, rfl, rfl, rfl, rfl⟩
  simp [processRule, hcool, hcond, _create_suggestion_for_rule, hconf]

/-- Witness for C4 (amended) on the concrete fixtures. -/
theorem C4_suggestion_fields_amended_witness :
    processRule cfgC2 1000 99 eventC4 ruleC4
      = (some (mkSuggestion cfgC2 1000 99 ruleC4 eventC4 (9 / 10)),
         applyRuleFired 1000 ruleC4,
         [[.insertSuggestion (mkSuggestion cfgC2 1000 99 ruleC4 eventC4 (9 / 10))],
          [.setRuleFired ruleC4.id 1000 1000]])
    ∧ (mkSuggestion cfgC2 1000 99 ruleC4 eventC4 (9 / 10)).source_event_id = none := by
  have h := C4_suggestion_fields_amended cfgC2 1000 99 eventC4 ruleC4 (9 / 10)
    rfl rfl rfl
  exact ⟨h.1, h.2.2.2.2.1⟩

theorem mem_processRules (cfg : RuleEngineSettings) (now : Int)
    (event : SystemEvent) (rule : ProactiveRule) (conf : Rat)
    (hfire : ∀ sid, (processRule cfg now sid event rule).1
      = some (mkSuggestion cfg now sid rule event conf)) :
    ∀ (sids : List Nat) (rules : List ProactiveRule), rule ∈ rules →
      ∃ sid, mkSuggestion cfg now sid rule event conf
        ∈ (processRules cfg now sids rules event).1 := by
  intro sids rules
  induction rules generalizing sids with
  | nil => intro hm; simp at hm
  | cons r rest ih =>
      intro hm
      cases hm with
      | head =>
          refine ⟨sids.headD 0, ?_⟩
          simp only [processRules]
          rw [hfire (sids.headD 0)]
          exact List.mem_append_left _ (List.Mem.head _)
      | tail _ hmem =>
          rcases ih sids.tail hmem with ⟨sid, hsid⟩
          refine ⟨sid, ?_⟩
          simp only [processRules]
          exact List.mem_append_right _ hsid

/-- C10 counterexample: the rule's `conditions` has no `rules` list, its
cooldown is clear and its conditions evaluate vacuously true, yet
`handle_event` creates no Suggestion — `float(None)` raises inside
`_create_suggestion_for_rule`, an additional gate beyond the cooldown. -/
theorem C10_counterexample :
    dictGet ruleC10.conditions "rules" = none
    ∧ _is_in_cooldown cfgC2 60 ruleC10 = false
    ∧ _evaluate_conditions ruleC10.conditions eventC10.payload = .ok true
    ∧ (handle_event cfgC2 60 [5] [ruleC10] eventC10).1 = [] :=
  ⟨rfl, rfl, rfl, rfl⟩

/-- C10 (amended): a matching enabled rule whose `conditions.rules` is falsy
(absent, empty, or `None`) passes condition evaluation vacuously and creates
a Suggestion whenever the cooldown is clear and the `action_config`
confidence value converts with `float()` (in particular whenever the key is
absent, defaulting to 0.7); a malformed confidence aborts that rule with no
Suggestion. -/
theorem C10_vacuous_conditions_amended (cfg : RuleEngineSettings) (now : Int)
    (sids : List Nat) (db : List ProactiveRule) (event : SystemEvent)
    (rule : ProactiveRule) (conf : Rat)
    (hmem : rule ∈ db) (hen : rule.is_enabled = true)
    (horg : rule.organization_id = event.organization_id)
    (htrig : rule.trigger_event = event.event_type)
    (hfalsy : truthy (dictGetD rule.conditions "rules" (.list [])) = false)
    (hcool : _is_in_cooldown cfg now rule = false)
    (hconf : pyFloat (dictGetD rule.action_config "confidence" (.num (7 / 10)))
      = .ok conf) :
    ∃ sid, mkSuggestion cfg now sid rule event conf
      ∈ (handle_event cfg now sids db event).1 := by
  have hfilter : rule ∈ _load_matching_rules db event.organization_id
      event.event_type := by
    simp [_load_matching_rules, List.mem_filter, hmem, hen, horg, htrig]
  have hfire : ∀ sid, (processRule cfg now sid event rule).1
      = some (mkSuggestion cfg now sid rule event conf) := by
    intro sid
    have hcond : _evaluate_conditions rule.conditions event.payload = .ok true := by
      simp [_evaluate_conditions, hfalsy]
    simp [processRule, hcool, hcond, _create_suggestion_for_rule, hconf]
  exact mem_processRules cfg now event rule conf hfire sids _ hfilter

/-- Witness for C10 (amended): the empty-conditions rule with a well-formed
(default) confidence creates a Suggestion. -/
theorem C10_vacuous_conditions_amended_witness :
    ∃ sid, mkSuggestion cfgC2 60 sid ruleC10w eventC10 (7 / 10)
      ∈ (handle_event cfgC2 60 [21] [ruleC10w] eventC10).1 :=
  C10_vacuous_conditions_amended cfgC2 60 [21] [ruleC10w] eventC10 ruleC10w
    (7 / 10) (List.Mem.head _) rfl rfl rfl rfl rfl rfl

theorem get_or_create_session_mem
    {now : Int} {sid : Nat} {agents : List Agent} {sessions : List H5ChatSession}
    {uid aid : Nat} {c : H5ChatSession} {ss1 : List H5ChatSession}
    (h : _get_or_create_session now sid agents sessions uid aid = some (c, ss1)) :
    c ∈ ss1 := by
  unfold _get_or_create_session at h
  cases hfind : sessions.find? (fun s =>
      s.h5_user_id == uid && s.agent_id == aid && s.status == "active") with
  | some existing =>
      rw [hfind] at h
      simp only [Option.some.injEq, Prod.mk.injEq] at h
      obtain ⟨hc, hss⟩ := h
      rw [← hss]
      exact hc ▸ List.mem_of_find?_eq_some hfind
  | none =>
      rw [hfind] at h
      cases hag : agents.find? (fun a => a.id == aid) with
      | none => rw [hag] at h; simp at h
      | some agent =>
          rw [hag] at h
          dsimp only at h
          cases hgid : agent.gateway_id with
          | none => rw [hgid] at h; simp at h
          | some gid =>
              rw [hgid] at h
              simp only [Option.some.injEq, Prod.mk.injEq] at h
              obtain ⟨hc, hss⟩ := h
              rw [← hss]
              exact List.mem_append_right _ (hc ▸ List.Mem.head _)

/-- C8 counterexample: routing a gateway reply back to the user resolves the
active session and delivers, but returns the session table unchanged — the
session's `last_message_at` keeps its old value 100 instead of being set to
the time of the hop. -/
theorem C8_counterexample :
    route_gateway_to_h5_with_session relayEnvC8 [sessionC8] "h5:1:2" "hello" none []
      = (true, [sessionC8])
    ∧ sessionC8.last_message_at = some 100 :=
  ⟨rfl, rfl⟩

/-- C8 (amended): `route_h5_to_agent` updates the resolved session's
`last_message_at` (and `updated_at`) to the hop time before forwarding, but
`route_gateway_to_h5_with_session` performs no session write at all — the
reply hop leaves every session, and in particular `last_message_at`,
unchanged. -/
theorem C8_last_message_amended (env : RelayEnv) (now : Int) (sid : Nat)
    (assignments : List H5UserAgentAssignment) (agents : List Agent)
    (sessions : List H5ChatSession) (uid aid : Nat) (content : String)
    (mid : Option String) (c : H5ChatSession) (ss1 : List H5ChatSession)
    (hassign : (assignments.find? fun x =>
      x.h5_user_id == uid && x.agent_id == aid).isSome = true)
    (hres : _get_or_create_session now sid agents sessions uid aid = some (c, ss1)) :
    ({ c with last_message_at := some now, updated_at := now } : H5ChatSession)
        ∈ (route_h5_to_agent env now sid assignments agents sessions uid aid
            content mid).2
    ∧ ∀ (sessions2 : List H5ChatSession) (key content2 : String)
        (mid2 : Option String) (extra : PyDict),
        (route_gateway_to_h5_with_session env sessions2 key content2 mid2 extra).2
          = sessions2 := by
  constructor
  · cases hfind : assignments.find? (fun x =>
        x.h5_user_id == uid && x.agent_id == aid) with
    | none => rw [hfind] at hassign; simp at hassign
    | some asg =>
        have hcmem : c ∈ ss1 := get_or_create_session_mem hres
        simp only [route_h5_to_agent, hfind, hres]
        refine List.mem_map.2 ⟨c, hcmem, ?_⟩
        simp
  · intro sessions2 key content2 mid2 extra
    simp only [route_gateway_to_h5_with_session]
    cases sessions2.find? (fun s =>
        s.session_key == key && s.status == "active") <;> simp

/-- Witness for C8 (amended): the user→agent hop at time 5 stores
`last_message_at = 5` on the freshly created session, and a reply hop leaves
the session table untouched. -/
theorem C8_last_message_amended_witness :
    ({ sessionC8w with last_message_at := some 5, updated_at := 5 } : H5ChatSession)
        ∈ (route_h5_to_agent relayEnvC8 5 77 [assignC8] [relayAgentC8] [] 1 2
            "hi" none).2
    ∧ (route_gateway_to_h5_with_session relayEnvC8 [sessionC8w] "h5:1:2" "x"
        none []).2 = [sessionC8w] := by
  have h := C8_last_message_amended relayEnvC8 5 77 [assignC8] [relayAgentC8] []
    1 2 "hi" none sessionC8w [sessionC8w] rfl rfl
  exact ⟨h.1, h.2 [sessionC8w] "h5:1:2" "x" none []⟩

theorem compute_active (il : Bool) (step : Int) (ae : String)
    (l0 : Option (List String)) (cap : String) :
    compute_desired_heartbeat il true step ae l0 cap = ⟨some ae, 0, false⟩ := by
  simp [compute_desired_heartbeat]

theorem processAgent_skip {env : GovernorEnv} {a : Agent} (now : Int)
    (h : skipAgent env a = true) : processAgent env now a = (none, a) := by
  simp [processAgent, h]

theorem processAgent_preserves (env : GovernorEnv) (now : Int) (a : Agent) :
    ((processAgent env now a).2).id = a.id
    ∧ ((processAgent env now a).2).board_id = a.board_id
    ∧ ((processAgent env now a).2).gateway_id = a.gateway_id
    ∧ ((processAgent env now a).2).auto_heartbeat_enabled
        = a.auto_heartbeat_enabled := by
  unfold processAgent
  split
  · exact ⟨rfl, rfl, rfl, rfl⟩
  · cases hg : lookupGateway env.gateways a.gateway_id with
    | none => exact ⟨rfl, rfl, rfl, rfl⟩
    | some gw =>
        unfold processAgentBody
        dsimp only
        split <;> exact ⟨rfl, rfl, rfl, rfl⟩

theorem agentActive_congr (env : GovernorEnv) (now : Int) {a b : Agent}
    (h1 : a.id = b.id) (h2 : a.board_id = b.board_id) :
    agentActive env now a = agentActive env now b := by
  unfold agentActive
  rw [h1, h2]

theorem lookupGateway_of_not_skip {env : GovernorEnv} {a : Agent}
    (h : skipAgent env a = false) :
    ∃ gw, lookupGateway env.gateways a.gateway_id = some gw := by
  cases hg : lookupGateway env.gateways a.gateway_id with
  | some gw => exact ⟨gw, rfl⟩
  | none =>
      unfold skipAgent at h
      rw [hg] at h
      revert h
      cases a.auto_heartbeat_enabled <;> simp

theorem config_every_of_pyEqConfig {a : Agent} {payload : PyDict}
    (hnd : agentConfigKeysOk a)
    (hpe : pyEqConfig a.heartbeat_config (some payload) = true)
    {w : JVal} (hw : dictGet payload "every" = some w) :
    ∃ cfg v, a.heartbeat_config = some cfg ∧ dictGet cfg "every" = some v
      ∧ pyEq v w = true := by
  cases hcfg : a.heartbeat_config with
  | none => rw [hcfg] at hpe; simp [pyEqConfig] at hpe
  | some cfg =>
      rw [hcfg] at hpe
      simp only [pyEqConfig] at hpe
      have hnd2 : (cfg.map Prod.fst).Nodup := by
        unfold agentConfigKeysOk at hnd
        rw [hcfg] at hnd
        exact hnd
      rcases pyEq_obj_dictGet hnd2 hpe hw with ⟨v, hv, he⟩
      exact ⟨cfg, v, rfl, hv, he⟩

theorem processAgentBody_active_normalized (env : GovernorEnv) (now : Int)
    (a : Agent) (gw : Gateway) (hnd : agentConfigKeysOk a)
    (hact : agentActive env now a = true) :
    agentNormalized ((processAgentBody env now a gw).2) := by
  unfold processAgentBody
  simp only [hact, compute_active, DEFAULT_ACTIVE_EVERY, Option.map_some',
    Option.isSome_some, Bool.true_and]
  by_cases hpe : pyEqConfig a.heartbeat_config
      (some (_merge_heartbeat_config a "5m")) = true
  · rcases config_every_of_pyEqConfig hnd hpe (dictGet_merge_every a "5m")
      with ⟨cfg, v, hc, hv, hp⟩
    simp only [hpe, Bool.not_true, Bool.or_false]
    split
    · refine ⟨rfl, cfg, v, ?_, hv, hp⟩
      simp [hc]
    · next hdb =>
        simp only [Bool.or_eq_true, not_or, bne_iff_ne, ne_eq, not_not] at hdb
        exact ⟨hdb.1, cfg, v, hc, hv, hp⟩
  · have hpe2 : pyEqConfig a.heartbeat_config
        (some (_merge_heartbeat_config a "5m")) = false := by
      revert hpe
      cases pyEqConfig a.heartbeat_config (some (_merge_heartbeat_config a "5m"))
        <;> simp
    simp only [hpe2, Bool.not_false, Bool.or_true, if_pos rfl]
    refine ⟨rfl, _merge_heartbeat_config a "5m", .str "5m", by simp,
      dictGet_merge_every a "5m", by simp [pyEq]⟩

theorem processAgent_active_normalized (env : GovernorEnv) (now : Int)
    (a : Agent) (hskip : skipAgent env a = false) (hnd : agentConfigKeysOk a)
    (hact : agentActive env now a = true) :
    agentNormalized ((processAgent env now a).2) := by
  rcases lookupGateway_of_not_skip hskip with ⟨gw, hg⟩
  simp only [processAgent, hskip, Bool.false_eq_true, if_false, hg]
  exact processAgentBody_active_normalized env now a gw hnd hact

theorem processAgent_no_patch (env : GovernorEnv) (now : Int) (a : Agent)
    (hact : agentActive env now a = true) (hn : agentNormalized a) :
    (processAgent env now a).1 = none := by
  obtain ⟨hoff, cfg, v, hcfg, hv, hpe⟩ := hn
  unfold processAgent
  split
  · rfl
  · cases hg : lookupGateway env.gateways a.gateway_id with
    | none => rfl
    | some gw =>
        unfold processAgentBody
        simp only [hact, compute_active, DEFAULT_ACTIVE_EVERY, Option.map_some',
          Option.isSome_some, Bool.true_and, hcfg, hv, hpe, hoff,
          Bool.not_true, Bool.or_false]
        split <;> rfl

/-- C7 counterexample: with no intervening activity (chat and work signals
unchanged), the second governor run still enqueues a gateway patch — an
agent whose heartbeat is off is re-patched (with a heartbeat removal) on
every run, so the tick is not idempotent over patches. -/
theorem C7_counterexample :
    (run_governor_once envC7 300 (run_governor_once envC7 0 [agentC7]).2).1
      = [⟨1, "1", "/ws/1", none⟩]
    ∧ ([⟨1, "1", "/ws/1", none⟩] : List PatchEntry) ≠ [] :=
  ⟨rfl, by simp⟩

/-- C7 (amended): the second of two governor runs with no intervening
activity enqueues no patch for any agent that is either skipped by the
per-agent guards or active on both runs; idle agents, by contrast, keep
backing off one rung per run (emitting a patch each time) and fully-off
agents are re-patched on every run.  Config dicts are assumed to carry
unique keys, as Python dicts do. -/
theorem C7_second_run_amended (env : GovernorEnv) (agents : List Agent)
    (now1 now2 : Int)
    (hnd : ∀ a ∈ agents, agentConfigKeysOk a)
    (h : ∀ a ∈ agents, skipAgent env a = true
      ∨ (agentActive env now1 a = true ∧ agentActive env now2 a = true)) :
    (run_governor_once env now2 (run_governor_once env now1 agents).2).1 = [] := by
  induction agents with
  | nil => rfl
  | cons a rest ih =>
      have hsnd : (run_governor_once env now1 (a :: rest)).2
          = (processAgent env now1 a).2 :: (run_governor_once env now1 rest).2 := rfl
      rw [hsnd]
      have hstep : (run_governor_once env now2
            ((processAgent env now1 a).2 :: (run_governor_once env now1 rest).2)).1
          = (processAgent env now2 ((processAgent env now1 a).2)).1.toList
            ++ (run_governor_once env now2 (run_governor_once env now1 rest).2).1 := rfl
      rw [hstep, List.append_eq_nil]
      constructor
      · by_cases hsk : skipAgent env a = true
        · rw [processAgent_skip now1 hsk]
          rw [processAgent_skip now2 hsk]
          rfl
        · have hskf : skipAgent env a = false := by
            revert hsk; cases skipAgent env a <;> simp
          rcases h a (List.Mem.head _) with hskip | ⟨h1, h2⟩
          · exact absurd hskip hsk
          · have hpres := processAgent_preserves env now1 a
            have hact2 : agentActive env now2 ((processAgent env now1 a).2) = true := by
              rw [agentActive_congr env now2 hpres.1 hpres.2.1]
              exact h2
            have hn : agentNormalized ((processAgent env now1 a).2) :=
              processAgent_active_normalized env now1 a hskf
                (hnd a (List.Mem.head _)) h1
            rw [processAgent_no_patch env now2 _ hact2 hn]
            rfl
      · exact ih (fun x hx => hnd x (List.mem_cons_of_mem _ hx))
          (fun x hx => h x (List.mem_cons_of_mem _ hx))

/-- Witness for C7 (amended): an agent that is active on both runs (it has
in-progress work) receives no patch on the second run. -/
theorem C7_second_run_amended_witness :
    (run_governor_once envC7w 300 (run_governor_once envC7w 0 [agentC7w]).2).1
      = [] := by
  refine C7_second_run_amended envC7w [agentC7w] 0 300 ?_ ?_
  · intro a ha
    have : a = agentC7w := by simpa using ha
    subst this
    exact trivial
  · intro a ha
    have : a = agentC7w := by simpa using ha
    subst this
    exact Or.inr ⟨rfl, rfl⟩
